import Mathlib

/-!
Verification of pyjoomatic (src/pyjoomatic/admin.py) against its
natural-language specification.

The file is a shallow embedding: the pure parts of the module (the URL
parameter rewrite helper and the Python standard-library functions it calls)
are translated into executable Lean functions on `String`/`List Char`, and
the browser-driving parts (element lookup with the
`no_such_element_default` decorator, the form fillers, the post-save tail of
`add_article`) are modelled as pure functions over explicit page/DOM state
that record the browser interactions they would perform as a trace.

Conventions:
  * Machine behaviour of CPython is modelled where the module relies on it
    (exception taxonomy, `str()` of values, `dict.update`, truthiness,
    subscription of objects that define no `__getitem__`).
  * All definitions are computable so that every theorem can be checked on
    concrete inputs by `rfl`/`decide`.
-/

/-- Python exception taxonomy as observed by pyjoomatic: selenium's
NoSuchElementException, the interpreter's TypeError / AttributeError /
KeyError / IndexError, `ValueError` raised by `fill_input_file`,
`AssertionError` raised by `assert`, and the module's own `AdminError`. -/
inductive PyErr where
  | noSuchElement
  | typeError (msg : String)
  | attributeError (msg : String)
  | keyError (msg : String)
  | indexError (msg : String)
  | valueError (msg : String)
  | assertionError (msg : String)
  | adminError (msg : String)
deriving DecidableEq, Repr

/-- A Python value as it appears in the `params` dict of `update_url_params`:
`parse_qs` produces `list[str]` values, the `kwargs` overwrite them with
whatever the caller passed (a string or an int in this module). -/
inductive PyVal where
  | vStr (s : String)
  | vInt (n : Int)
  | vListStr (l : List String)
deriving DecidableEq, Repr

/-- Uppercase hex digit, used by `urllib.parse.quote` (percent-encoding). -/
def hexDigitU (n : Nat) : Char :=
  if n < 10 then Char.ofNat (48 + n) else Char.ofNat (55 + n)

/-- Lowercase hex digit, used by CPython `repr` for `\xHH` escapes. -/
def hexDigitL (n : Nat) : Char :=
  if n < 10 then Char.ofNat (48 + n) else Char.ofNat (87 + n)

/-- Value of one hex digit, upper or lower case (as `bytes.fromhex` accepts
inside `urllib.parse.unquote`). -/
def hexVal (c : Char) : Option Nat :=
  if '0' ≤ c ∧ c ≤ '9' then some (c.toNat - 48)
  else if 'a' ≤ c ∧ c ≤ 'f' then some (c.toNat - 87)
  else if 'A' ≤ c ∧ c ≤ 'F' then some (c.toNat - 55)
  else none

/-- UTF-8 bytes of one character (`str.encode` before percent-encoding). -/
def utf8Bytes (c : Char) : List Nat :=
  let n := c.toNat
  if n < 128 then [n]
  else if n < 2048 then [192 + n / 64, 128 + n % 64]
  else if n < 65536 then [224 + n / 4096, 128 + (n / 64) % 64, 128 + n % 64]
  else [240 + n / 262144, 128 + (n / 4096) % 64, 128 + (n / 64) % 64, 128 + n % 64]

/-- urllib's always-safe characters: ASCII letters, digits, and `_.-~`
(`urlencode` is called with its default `safe` of the empty string). -/
def isAlwaysSafe (c : Char) : Bool :=
  c.isAlpha || c.isDigit || c == '_' || c == '.' || c == '-' || c == '~'

/-- Percent-encode one byte as `%XX` with uppercase hex. -/
def percentEncodeByte (n : Nat) : List Char :=
  ['%', hexDigitU (n / 16), hexDigitU (n % 16)]

/-- `urllib.parse.quote_plus` with empty `safe` (the `quote_via` that
`urlencode` uses): keep always-safe characters, turn a space into `+`,
percent-encode every other character byte by byte. -/
def quote_plus (s : String) : String :=
  String.mk (s.data.flatMap (fun c =>
    if isAlwaysSafe c then [c]
    else if c == ' ' then ['+']
    else (utf8Bytes c).flatMap percentEncodeByte))

/-- Percent-decoding of `urllib.parse.unquote`: a `%` followed by two hex
digits becomes the encoded byte, an invalid sequence is kept literally.
Decoded bytes are taken as characters directly; multi-byte UTF-8 sequences
are not reassembled (every input the module produces here is ASCII). -/
def percentDecode : List Char → List Char
  | [] => []
  | '%' :: a :: b :: rest =>
    match hexVal a, hexVal b with
    | some ha, some hb => Char.ofNat (16 * ha + hb) :: percentDecode rest
    | _, _ => '%' :: percentDecode (a :: b :: rest)
  | c :: rest => c :: percentDecode rest

/-- `urllib.parse.unquote_plus` as `parse_qsl` applies it: first `+` becomes
a space, then percent sequences are decoded. -/
def unquote_plus (s : List Char) : List Char :=
  percentDecode (s.map (fun c => if c == '+' then ' ' else c))

/-- One character of CPython `repr` of a string: escape the backslash and the
chosen quote, use `\t` `\n` `\r` for those controls and `\xHH` (lowercase)
for the other non-printable ASCII. -/
def reprEscape (q : Char) (c : Char) : List Char :=
  if c == '\\' || c == q then ['\\', c]
  else if c == '\t' then ['\\', 't']
  else if c == '\n' then ['\\', 'n']
  else if c == '\r' then ['\\', 'r']
  else if c.toNat < 32 || c.toNat == 127 then
    ['\\', 'x', hexDigitL (c.toNat / 16), hexDigitL (c.toNat % 16)]
  else [c]

/-- CPython `repr` of a string (ASCII contents): single quotes by default,
double quotes when the string holds a single quote but no double quote. -/
def pyReprStr (s : String) : String :=
  let q := if s.data.contains '\'' && !(s.data.contains '"') then '"' else '\''
  String.mk (q :: (s.data.flatMap (reprEscape q) ++ [q]))

/-- Python `str()` of the values `update_url_params` feeds to `urlencode`:
a string is itself, an int prints in decimal, and a `list[str]` prints as
`[repr, repr, ...]` — this last case is what `urlencode` receives for every
pre-existing query parameter, because the module calls `urlencode` without
`doseq=True`. -/
def pyStr : PyVal → String
  | PyVal.vStr s => s
  | PyVal.vInt n => toString n
  | PyVal.vListStr l => "[" ++ String.intercalate ", " (l.map pyReprStr) ++ "]"

/-- Split at the first occurrence of `sep`; `none` when `sep` is absent
(`str.find` returning -1 / `str.split(sep, 1)` of length 1). -/
def splitAtFirst (sep : Char) : List Char → Option (List Char × List Char)
  | [] => none
  | c :: rest =>
    if c == sep then some ([], rest)
    else
      match splitAtFirst sep rest with
      | none => none
      | some ab => some (c :: ab.1, ab.2)

/-- Python `str.split(sep)`: the empty string gives one empty piece. -/
def splitOn (sep : Char) : List Char → List (List Char)
  | [] => [[]]
  | c :: rest =>
    let r := splitOn sep rest
    if c == sep then [] :: r
    else
      match r with
      | [] => [[c]]
      | g :: gs => (c :: g) :: gs

/-- Longest prefix on which `p` is false, with the remainder. -/
def spanNot (p : Char → Bool) : List Char → List Char × List Char
  | [] => ([], [])
  | c :: rest =>
    if p c then ([], c :: rest)
    else
      let ab := spanNot p rest
      (c :: ab.1, ab.2)

/-- `urlsplit` first deletes the unsafe bytes tab, carriage return and
newline from the URL. -/
def stripControlChars (s : List Char) : List Char :=
  s.filter (fun c => !(c == '\t' || c == '\r' || c == '\n'))

/-- Characters allowed after the first one in a URL scheme
(`urllib.parse.scheme_chars`). -/
def isSchemeChar (c : Char) : Bool :=
  c.isAlpha || c.isDigit || c == '+' || c == '-' || c == '.'

/-- Scheme extraction of `urlsplit`: the text before the first `:` is a
scheme when it starts with an ASCII letter and continues with scheme
characters; it is returned lowercased (ASCII, as the validity check already
restricts it). -/
def splitScheme (url : List Char) : List Char × List Char :=
  match splitAtFirst ':' url with
  | none => ([], url)
  | some ab =>
    match ab.1 with
    | [] => ([], url)
    | c0 :: rest =>
      if c0.isAlpha && rest.all isSchemeChar then
        ((c0 :: rest).map Char.toLower, ab.2)
      else ([], url)

/-- `_splitnetloc`: the netloc runs to the first `/`, `?` or `#`. -/
def splitNetloc (url : List Char) : List Char × List Char :=
  spanNot (fun c => c == '/' || c == '?' || c == '#') url

/-- Result of `urllib.parse.urlsplit`. -/
structure UrlSplitResult where
  scheme : String
  netloc : String
  path : String
  query : String
  fragment : String
deriving DecidableEq, Repr

/-- `urllib.parse.urlsplit`: strip unsafe bytes, split off the scheme, a
`//`-prefixed netloc, then the fragment at the first `#`, then the query at
the first `?`. (The IPv6-bracket and NFKC netloc validations, which can only
raise and never change the result, are not modelled.) -/
def urlsplit (url : String) : UrlSplitResult :=
  let u0 := stripControlChars url.data
  let su := splitScheme u0
  let nu :=
    match su.2 with
    | '/' :: '/' :: rest => splitNetloc rest
    | other => ([], other)
  let fu :=
    match splitAtFirst '#' nu.2 with
    | some ab => ab
    | none => (nu.2, [])
  let qu :=
    match splitAtFirst '?' fu.1 with
    | some ab => ab
    | none => (fu.1, [])
  ⟨String.mk su.1, String.mk nu.1, String.mk qu.1, String.mk qu.2, String.mk fu.2⟩

/-- Index of the last occurrence of `c` (`str.rfind`, only used when present). -/
def lastIndexOf (c : Char) (s : List Char) : Option Nat :=
  ((s.enum.filter (fun p => p.2 == c)).getLast?).map (fun p => p.1)

/-- Index of the first occurrence of `c` at or after `start`
(`str.find(c, start)`). -/
def firstIndexFrom (c : Char) (start : Nat) (s : List Char) : Option Nat :=
  ((s.enum.filter (fun p => decide (start ≤ p.1) && p.2 == c)).head?).map (fun p => p.1)

/-- `urllib.parse._splitparams`: split the path at the first `;` after the
last `/` (or the first `;` at all when there is no `/`). Only called when a
`;` is present. -/
def splitparams (url : List Char) : List Char × List Char :=
  if url.contains '/' then
    match firstIndexFrom ';' ((lastIndexOf '/' url).getD 0) url with
    | none => (url, [])
    | some i => (url.take i, url.drop (i + 1))
  else
    match firstIndexFrom ';' 0 url with
    | none => (url, [])
    | some i => (url.take i, url.drop (i + 1))

/-- Schemes for which `urlparse` separates path parameters
(`urllib.parse.uses_params`). -/
def uses_params : List String :=
  ["", "ftp", "hdl", "prospero", "http", "imap", "https", "shttp",
   "rtsp", "rtspu", "sip", "sips", "mms", "sftp", "tel"]

/-- Result of `urllib.parse.urlparse`; `list(parsed_url)` in the source is
this 6-tuple in field order. -/
structure UrlParseResult where
  scheme : String
  netloc : String
  path : String
  params : String
  query : String
  fragment : String
deriving DecidableEq, Repr

/-- `urllib.parse.urlparse`: `urlsplit` plus path-parameter separation. -/
def urlparse (url : String) : UrlParseResult :=
  let s := urlsplit url
  if uses_params.contains s.scheme && s.path.data.contains ';' then
    let pp := splitparams s.path.data
    ⟨s.scheme, s.netloc, String.mk pp.1, String.mk pp.2, s.query, s.fragment⟩
  else ⟨s.scheme, s.netloc, s.path, "", s.query, s.fragment⟩

/-- `urllib.parse.urlunsplit`. -/
def urlunsplit (scheme netloc url query fragment : String) : String :=
  let u1 :=
    if netloc ≠ "" ∨ (url ≠ "" ∧ url.data.take 2 = ['/', '/']) then
      let u2 := if url ≠ "" ∧ url.data.take 1 ≠ ['/'] then "/" ++ url else url
      "//" ++ netloc ++ u2
    else url
  let u3 := if scheme ≠ "" then scheme ++ ":" ++ u1 else u1
  let u4 := if query ≠ "" then u3 ++ "?" ++ query else u3
  if fragment ≠ "" then u4 ++ "#" ++ fragment else u4

/-- `urllib.parse.urlunparse`: re-attach path parameters, then `urlunsplit`. -/
def urlunparse (scheme netloc path params query fragment : String) : String :=
  let url := if params ≠ "" then path ++ ";" ++ params else path
  urlunsplit scheme netloc url query fragment

/-- `urllib.parse.parse_qsl` with its defaults (`keep_blank_values=False`):
split on `&`, skip pieces without `=` or with an empty value, decode `+` and
percent sequences in name and value. -/
def parse_qsl (qs : String) : List (String × String) :=
  if qs = "" then []
  else
    (splitOn '&' qs.data).filterMap (fun pair =>
      match splitAtFirst '=' pair with
      | none => none
      | some nv =>
        if nv.2 = [] then none
        else some (String.mk (unquote_plus nv.1), String.mk (unquote_plus nv.2)))

/-- Append one name/value pair into the grouped dict of `parse_qs`
(`parsed_result[name].append(value)` resp. a fresh one-element list),
keeping first-occurrence key order as a Python dict does. -/
def qsInsert (d : List (String × List String)) (k v : String) :
    List (String × List String) :=
  match d with
  | [] => [(k, [v])]
  | (k0, vs) :: rest =>
    if k0 = k then (k0, vs ++ [v]) :: rest else (k0, vs) :: qsInsert rest k v

/-- `urllib.parse.parse_qs` with its defaults, as an ordered association list
(key order and per-key value order as CPython's dict produces them). -/
def parse_qs (qs : String) : List (String × List String) :=
  (parse_qsl qs).foldl (fun d p => qsInsert d p.1 p.2) []

/-- Dict lookup (`params["id"]`): `none` models a KeyError. -/
def qsLookup (d : List (String × List String)) (k : String) :
    Option (List String) :=
  match d with
  | [] => none
  | (k0, v) :: rest => if k0 = k then some v else qsLookup rest k

/-- One step of `dict.update`: overwrite an existing key in place, append a
new key at the end. -/
def setKey (d : List (String × PyVal)) (k : String) (v : PyVal) :
    List (String × PyVal) :=
  match d with
  | [] => [(k, v)]
  | (k0, v0) :: rest =>
    if k0 = k then (k0, v) :: rest else (k0, v0) :: setKey rest k v

/-- `params.update(kwargs)` on the dict produced by `parse_qs`. -/
def dictUpdate (d : List (String × PyVal)) (kw : List (String × PyVal)) :
    List (String × PyVal) :=
  kw.foldl (fun acc p => setKey acc p.1 p.2) d

/-- `urllib.parse.urlencode` on a dict, without `doseq`: every value goes
through `str()` and `quote_plus` wholesale — a `list[str]` value is encoded
as the percent-encoding of its Python repr. -/
def urlencode (query : List (String × PyVal)) : String :=
  String.intercalate "&"
    (query.map (fun p => quote_plus p.1 ++ "=" ++ quote_plus (pyStr p.2)))

/-- `pyjoomatic.admin.update_url_params` (admin.py lines 62-75): parse the
URL, parse its query into a dict, `update` it with the keyword arguments,
re-encode with `urlencode` and rebuild the URL with `urlunparse`. -/
def update_url_params (url : String) (kwargs : List (String × PyVal)) : String :=
  let parsed_url := urlparse url
  let params0 := (parse_qs parsed_url.query).map (fun p => (p.1, PyVal.vListStr p.2))
  let params := dictUpdate params0 kwargs
  urlunparse parsed_url.scheme parsed_url.netloc parsed_url.path parsed_url.params
    (urlencode params) parsed_url.fragment

/-- C2: `update_url_params` is not idempotent. On `http://x/y?a=1` with
`id=2`, the first application wraps the untouched parameter `a` in the repr
of its `parse_qs` list (because `urlencode` is called without `doseq=True`),
and the second application wraps it once more, so the two results differ.
The function evaluated at the failing input. -/
theorem C2_not_idempotent_eval :
    update_url_params "http://x/y?a=1" [("id", PyVal.vInt 2)] =
      "http://x/y?a=%5B%271%27%5D&id=2" ∧
    update_url_params "http://x/y?a=%5B%271%27%5D&id=2" [("id", PyVal.vInt 2)] =
      "http://x/y?a=%5B%22%5B%271%27%5D%22%5D&id=2" ∧
    ("http://x/y?a=%5B%22%5B%271%27%5D%22%5D&id=2" : String) ≠
      "http://x/y?a=%5B%271%27%5D&id=2" :=
  ⟨rfl, rfl, by decide⟩

/-- C3: `update_url_params("http://x/y?id=1", id=2)` returns exactly
`http://x/y?id=2`: scheme `http`, host `x`, path `/y`, and the query's
key/value set is exactly `id = 2`. -/
theorem C3_update_single_param_eval :
    update_url_params "http://x/y?id=1" [("id", PyVal.vInt 2)] = "http://x/y?id=2" ∧
    urlparse (update_url_params "http://x/y?id=1" [("id", PyVal.vInt 2)]) =
      ⟨"http", "x", "/y", "", "id=2", ""⟩ ∧
    parse_qs (urlparse (update_url_params "http://x/y?id=1" [("id", PyVal.vInt 2)])).query =
      [("id", ["2"])] :=
  ⟨rfl, rfl, rfl⟩

/-- C4: `update_url_params` does not keep the original values of query
parameters it was not asked to change. On `http://x/y?a=1` with `id=2` the
untouched parameter `a` comes back as the string `['1']` (the repr of its
`parse_qs` list, percent-encoded), not as `1`: `urlencode` is called without
`doseq=True`. Scheme, host, path and fragment are preserved on this input,
but the claim's clause about other parameters keeping their values fails.
The function evaluated at the failing input. -/
theorem C4_other_params_mangled_eval :
    update_url_params "http://x/y?a=1" [("id", PyVal.vInt 2)] =
      "http://x/y?a=%5B%271%27%5D&id=2" ∧
    parse_qs (urlparse (update_url_params "http://x/y?a=1" [("id", PyVal.vInt 2)])).query =
      [("a", ["['1']"]), ("id", ["2"])] ∧
    (["['1']"] : List String) ≠ ["1"] :=
  ⟨rfl, rfl, by decide⟩

/-- A located DOM element as the module observes one through selenium: an
identity for the trace, its tag name, whether it is displayed, its
attribute/property map (what `get_attribute` consults) and its `.text`
property. -/
structure Elt where
  eid : Nat
  tag_name : String
  displayed : Bool
  attrs : List (String × String)
  textProp : String
deriving DecidableEq, Repr

/-- selenium `get_attribute`: the attribute or property of that name, `None`
(here `none`) when the element has no such attribute. -/
def get_attribute (e : Elt) (name : String) : Option String :=
  (e.attrs.find? (fun p => p.1 == name)).map (fun p => p.2)

/-- Python `str()` of a `get_attribute` result: `str(None)` is `"None"`. -/
def pyStrOfAttr : Option String → String
  | none => "None"
  | some s => s

/-- `EltWrapper` (admin.py lines 78-123): a wrapper around one selenium
element. It defines `__getattr__` (delegation to the wrapped element) but no
`__getitem__`, no `__bool__` and no `__len__`. -/
structure EltWrapper where
  elt : Elt
deriving DecidableEq, Repr

/-- selenium `find_element_by_*`: the first match, or NoSuchElementException
when nothing matches. -/
def find_element (ms : List Elt) : Except PyErr Elt :=
  match ms with
  | [] => Except.error PyErr.noSuchElement
  | e :: _ => Except.ok e

/-- selenium `find_elements_by_*`: the list of matches; zero matches give the
empty list, never an exception. -/
def find_elements (ms : List Elt) : List Elt :=
  ms

/-- The `no_such_element_default` decorator (admin.py lines 29-42): pop the
`default` keyword argument, run the wrapped call, and on
NoSuchElementException return the default when one was supplied, otherwise
re-raise. Any other exception propagates even with a default. -/
def no_such_element_default (fn : Except PyErr α) (default : Option α) :
    Except PyErr α :=
  match fn, default with
  | Except.error PyErr.noSuchElement, some d => Except.ok d
  | r, _ => r

/-- The selector environment of one wrapped element (or of the page root):
for each selector kind, the list of elements the underlying selenium find
would locate for a selector string, in document order. -/
structure SelDom where
  tagMatches : String → List Elt
  nameMatches : String → List Elt
  cssMatches : String → List Elt
  xpathMatches : String → List Elt
  idMatches : String → List Elt

/-- `EltWrapper.by_tag` (decorated): first tag match wrapped, or the default. -/
def by_tag (d : SelDom) (name : String) (default : Option EltWrapper) :
    Except PyErr EltWrapper :=
  no_such_element_default (Except.map EltWrapper.mk (find_element (d.tagMatches name))) default

/-- `EltWrapper.all_tag` (decorated): every tag match wrapped. -/
def all_tag (d : SelDom) (name : String) (default : Option (List EltWrapper)) :
    Except PyErr (List EltWrapper) :=
  no_such_element_default (Except.ok ((find_elements (d.tagMatches name)).map EltWrapper.mk)) default

/-- `EltWrapper.by_name` (decorated). -/
def by_name (d : SelDom) (name : String) (default : Option EltWrapper) :
    Except PyErr EltWrapper :=
  no_such_element_default (Except.map EltWrapper.mk (find_element (d.nameMatches name))) default

/-- `EltWrapper.all_name` (decorated). -/
def all_name (d : SelDom) (name : String) (default : Option (List EltWrapper)) :
    Except PyErr (List EltWrapper) :=
  no_such_element_default (Except.ok ((find_elements (d.nameMatches name)).map EltWrapper.mk)) default

/-- `EltWrapper.by_css` (decorated). -/
def by_css (d : SelDom) (selector : String) (default : Option EltWrapper) :
    Except PyErr EltWrapper :=
  no_such_element_default (Except.map EltWrapper.mk (find_element (d.cssMatches selector))) default

/-- `EltWrapper.all_css` (decorated). -/
def all_css (d : SelDom) (selector : String) (default : Option (List EltWrapper)) :
    Except PyErr (List EltWrapper) :=
  no_such_element_default (Except.ok ((find_elements (d.cssMatches selector)).map EltWrapper.mk)) default

/-- `EltWrapper.by_xpath` (decorated). -/
def by_xpath (d : SelDom) (selector : String) (default : Option EltWrapper) :
    Except PyErr EltWrapper :=
  no_such_element_default (Except.map EltWrapper.mk (find_element (d.xpathMatches selector))) default

/-- `EltWrapper.all_xpath` (decorated). -/
def all_xpath (d : SelDom) (selector : String) (default : Option (List EltWrapper)) :
    Except PyErr (List EltWrapper) :=
  no_such_element_default (Except.ok ((find_elements (d.xpathMatches selector)).map EltWrapper.mk)) default

/-- `EltWrapper.by_id` (decorated). -/
def by_id (d : SelDom) (id_ : String) (default : Option EltWrapper) :
    Except PyErr EltWrapper :=
  no_such_element_default (Except.map EltWrapper.mk (find_element (d.idMatches id_))) default

/-- One browser interaction performed on a located element, recorded in
order. `sendKeys` carries the Python value handed to selenium (`none` when
the code passes the `None` of a missing attribute). -/
inductive BrowserAct where
  | clear (eid : Nat)
  | sendKeys (eid : Nat) (text : Option String)
  | click (eid : Nat)
deriving DecidableEq, Repr

/-- The filesystem as `fill_input_file` consults it: `os.path.abspath`,
`os.path.exists` and `os.path.isfile`. -/
structure FileSystem where
  abspath : String → String
  path_exists : String → Bool
  isfile : String → Bool

/-- `JoomlaFormDriver.fill_input_text` (admin.py lines 225-227):
clear, then type the value. -/
def fill_input_text (fname : String) (field : Elt) (value : String) :
    List BrowserAct :=
  [BrowserAct.clear field.eid, BrowserAct.sendKeys field.eid (some value)]

/-- `JoomlaFormDriver.fill_input_file` (admin.py lines 229-238): clear the
field first, then resolve the value to an absolute path and raise ValueError
when it does not exist or is not a regular file; only then type the path.
The returned trace records the browser interactions in program order. -/
def fill_input_file (fs : FileSystem) (fname : String) (field : Elt)
    (value : String) : List BrowserAct × Except PyErr Unit :=
  let acts := [BrowserAct.clear field.eid]
  let fpath := fs.abspath value
  if !fs.path_exists fpath then
    (acts, Except.error (PyErr.valueError
      (value ++ " does not exists, can't feed it as an upload value")))
  else if !fs.isfile fpath then
    (acts, Except.error (PyErr.valueError
      (value ++ " is not a file, can't feed it as an upload value")))
  else
    (acts ++ [BrowserAct.sendKeys field.eid (some fpath)], Except.ok ())

/-- `JoomlaFormDriver.fill_input_radio` (admin.py lines 240-243), as written:
`fvalue = field.get_attribute(value)` reads the attribute whose NAME is the
requested value (not the attribute named "value"), and the radio is clicked
when `str(fvalue) == str(value)`. -/
def fill_input_radio (fname : String) (field : Elt) (value : String) :
    List BrowserAct :=
  let fvalue := get_attribute field value
  if pyStrOfAttr fvalue = value then [BrowserAct.click field.eid] else []

/-- A `<select>` field: the element itself and its `<option>` descendants
(what the XPath `.//option[@value='...']` searches). -/
structure SelectField where
  elt : Elt
  options : List Elt
deriving DecidableEq, Repr

/-- The "chosen" widget `fill_select` falls back to: the id lookup
`jform_<fname>_chzn` resolves to its clickable link, its embedded search
box, and the `li` results shown under `.chzn-results` once the option text
has been typed (the state `all_tag("li")` reads back). -/
structure ChznWidget where
  linkEid : Nat
  inputEid : Nat
  results : List Elt
deriving DecidableEq, Repr

/-- The page environment of `fill_select`: `self.b.by_id("jform_%s_chzn")`
for a field name (`none` models no such element). -/
structure PageEnv where
  chzn : String → Option ChznWidget

/-- `field.by_xpath(".//option[@value='%s']" % value)` with no default: the
first option whose value attribute equals the requested value, or the
NoSuchElementException of the decorator. -/
def select_option_lookup (field : SelectField) (value : String) :
    Except PyErr Elt :=
  no_such_element_default
    (find_element (field.options.filter (fun o => get_attribute o "value" == some value)))
    none

/-- `JoomlaFormDriver.fill_select` (admin.py lines 245-266): locate the
option by value (NoSuchElementException propagates when absent); if the
select is displayed click the option; otherwise read the option's `text`
attribute, open the chosen widget's link, type the text into its search box,
read the filtered `li` results, assert exactly one and click it — with an
AssertionError naming the result count, the option text, the field and the
value otherwise. -/
def fill_select (env : PageEnv) (fname : String) (field : SelectField)
    (value : String) : List BrowserAct × Except PyErr Unit :=
  match select_option_lookup field value with
  | Except.error e => ([], Except.error e)
  | Except.ok opt =>
    if field.elt.displayed then
      ([BrowserAct.click opt.eid], Except.ok ())
    else
      let text := get_attribute opt "text"
      match env.chzn fname with
      | none => ([], Except.error PyErr.noSuchElement)
      | some w =>
        let acts := [BrowserAct.click w.linkEid, BrowserAct.sendKeys w.inputEid text]
        match w.results with
        | [r] => (acts ++ [BrowserAct.click r.eid], Except.ok ())
        | rs => (acts, Except.error (PyErr.assertionError
            ("Found " ++ toString rs.length ++ " results for " ++ opt.textProp ++
              " for " ++ fname ++ " = " ++ value)))

/-- One iteration of the loop of `fill_field`: the tab activation
(`ensure_field_tab`), the tag-name dispatch (`getattr(self, "fill_" +
field.tag_name)`) and the filler call, with the element each was applied to. -/
structure FillStep where
  ensureTabOn : Nat
  dispatchTag : String
  fillOn : Nat
deriving DecidableEq, Repr

/-- The loop body of `JoomlaFormDriver.fill_field` (admin.py lines 336-341)
as written: `for field in fields: field = fields[0]; ...` rebinds the loop
variable to the first located element on every iteration, so each iteration
activates the tab of, dispatches on and fills the first element. -/
def fill_field_steps : List Elt → List FillStep
  | [] => []
  | f0 :: rest => (f0 :: rest).map (fun _ => ⟨f0.eid, f0.tag_name, f0.eid⟩)

/-- `JoomlaFormDriver.fill_field` (admin.py lines 332-341): build the form
field name (`jform[%s]` unless `jform=False`), locate all elements of that
name and run the per-field loop. -/
def fill_field (d : SelDom) (name : String) (jform : Bool) : List FillStep :=
  let fname := if jform then "jform[" ++ name ++ "]" else name
  fill_field_steps (d.nameMatches fname)

/-- The value of the property `JoomlaAdminParts.jform_error` (admin.py lines
187-189), `by_css(".alert-error", default=[])`: a single wrapped element
when the banner is present, the default empty list when not. -/
inductive ErrBannerVal where
  | wrapped (e : Elt)
  | emptyList
deriving DecidableEq, Repr

/-- The page state `add_article` inspects after clicking save: the first
element `.alert-error` matches (if any) and the current URL. -/
structure PostSavePage where
  alertError : Option Elt
  current_url : String
deriving DecidableEq, Repr

/-- `self.jap.jform_error` evaluated on the post-save page. -/
def jform_error (p : PostSavePage) : ErrBannerVal :=
  match p.alertError with
  | some e => ErrBannerVal.wrapped e
  | none => ErrBannerVal.emptyList

/-- Python truthiness of the `jform_error` value: a default object (the
`EltWrapper`, which defines neither `__bool__` nor `__len__`) is truthy, the
empty list is falsy. -/
def pyTruthy : ErrBannerVal → Bool
  | ErrBannerVal.wrapped _ => true
  | ErrBannerVal.emptyList => false

/-- Subscription `jform_error[0]`: `EltWrapper` defines no `__getitem__`,
and CPython's implicit special-method lookup does not fall back to the
class's `__getattr__`, so indexing the wrapped banner raises TypeError;
indexing the default `[]` would raise IndexError. -/
def bannerSubscript (v : ErrBannerVal) (i : Nat) : Except PyErr Elt :=
  match v with
  | ErrBannerVal.wrapped _ =>
    Except.error (PyErr.typeError "'EltWrapper' object is not subscriptable")
  | ErrBannerVal.emptyList =>
    Except.error (PyErr.indexError "list index out of range")

/-- The tail of `JoomlaAdminDriver.add_article` after the save click
(admin.py lines 393-401): when `jform_error` is truthy the code evaluates
`self.jap.jform_error[0].textContent` to build an AdminError — the
subscript raises first (and even the attribute read would raise, selenium
elements having no `textContent` attribute), so the AdminError is never
constructed; otherwise the article id is `parse_qs` of the current URL's
query at key `id`, first element. -/
def add_article_after_save (p : PostSavePage) : Except PyErr String :=
  if pyTruthy (jform_error p) then
    match bannerSubscript (jform_error p) 0 with
    | Except.error e => Except.error e
    | Except.ok _ => Except.error (PyErr.attributeError "textContent")
  else
    match qsLookup (parse_qs (urlparse p.current_url).query) "id" with
    | none => Except.error (PyErr.keyError "id")
    | some [] => Except.error (PyErr.indexError "list index out of range")
    | some (v :: _) => Except.ok v

/-- A page with no matching elements at all, for zero-match lookups. -/
def domNoMatch : SelDom :=
  ⟨fun _ => [], fun _ => [], fun _ => [], fun _ => [], fun _ => []⟩

/-- A wrapped element used as a caller-supplied default. -/
def wSeven : EltWrapper :=
  ⟨⟨7, "div", true, [], ""⟩⟩

/-- The error banner element of a failed save. -/
def bannerElt : Elt :=
  ⟨60, "div", true, [("class", "alert-error")], "Save failed: Title required"⟩

/-- A post-save page with the validation-error banner present. -/
def pageWithBanner : PostSavePage :=
  ⟨some bannerElt,
   "http://x/administrator/index.php?option=com_content&view=article&layout=edit&id=7"⟩

/-- A post-save page with no error banner and the article id in the URL. -/
def pageSaved : PostSavePage :=
  ⟨none,
   "http://x/administrator/index.php?option=com_content&view=article&layout=edit&id=42"⟩

/-- A filesystem on which no path exists. -/
def fsMissing : FileSystem :=
  ⟨fun s => "/home/user/" ++ s, fun _ => false, fun _ => false⟩

/-- A file input field. -/
def fileField : Elt :=
  ⟨3, "input", true, [("type", "file")], ""⟩

/-- A displayed select whose only option has value 1. -/
def selectAccess : SelectField :=
  ⟨⟨10, "select", true, [], ""⟩,
   [⟨11, "option", false, [("value", "1"), ("text", "Public")], "Public"⟩]⟩

/-- A page with no chosen widget. -/
def envNoChzn : PageEnv :=
  ⟨fun _ => none⟩

/-- The option with value 9 of a hidden (chosen-rendered) select. -/
def optNine : Elt :=
  ⟨21, "option", false, [("value", "9"), ("text", "Nine")], "Nine"⟩

/-- A hidden select rendered as a chosen widget, holding `optNine`. -/
def selCatid : SelectField :=
  ⟨⟨20, "select", false, [], ""⟩, [optNine]⟩

/-- A filtered chosen result. -/
def liNineA : Elt :=
  ⟨32, "li", true, [], "Nine"⟩

/-- A second filtered chosen result. -/
def liNineB : Elt :=
  ⟨33, "li", true, [], "Nine Again"⟩

/-- A chosen widget whose search shows two results. -/
def wTwoResults : ChznWidget :=
  ⟨30, 31, [liNineA, liNineB]⟩

/-- A chosen widget whose search shows exactly one result. -/
def wOneResult : ChznWidget :=
  ⟨30, 31, [liNineA]⟩

/-- A page whose chosen widget shows two results. -/
def envTwoResults : PageEnv :=
  ⟨fun _ => some wTwoResults⟩

/-- A page whose chosen widget shows one result. -/
def envOneResult : PageEnv :=
  ⟨fun _ => some wOneResult⟩

/-- A radio button whose value attribute is the requested value 1. -/
def radioOne : Elt :=
  ⟨5, "input", true, [("type", "radio"), ("value", "1")], ""⟩

/-- First radio button of a two-element radio group. -/
def radioZero : Elt :=
  ⟨50, "input", true, [("type", "radio"), ("value", "0")], ""⟩

/-- Second radio button of that group. -/
def radioOneB : Elt :=
  ⟨51, "input", true, [("type", "radio"), ("value", "1")], ""⟩

/-- A page on which every name lookup finds the two radio buttons. -/
def domRadioGroup : SelDom :=
  ⟨fun _ => [], fun _ => [radioZero, radioOneB], fun _ => [], fun _ => [], fun _ => []⟩

/-- Filtering with a predicate that is false on every element gives the
empty list. -/
theorem filter_false_eq_nil {α : Type} (p : α → Bool) (l : List α)
    (h : ∀ a ∈ l, p a = false) : l.filter p = [] := by
  induction l with
  | nil => rfl
  | cons a t ih =>
    have ha : p a = false := h a (List.mem_cons_self a t)
    simp [List.filter_cons, ha,
      ih (fun b hb => h b (List.mem_cons_of_mem a hb))]

/-- Mapping a constant function is replication. -/
theorem list_map_const_replicate {α β : Type} (l : List α) (b : β) :
    l.map (fun _ => b) = List.replicate l.length b := by
  induction l with
  | nil => rfl
  | cons a t ih => simp [List.replicate_succ, ih]

/-- C1 counterexample: a plural lookup (`all_tag`) with zero matches and a
supplied default does NOT return the default — selenium `find_elements`
returns the empty list without raising, so the decorator's except branch
never runs and the result is the (wrapped) empty list. -/
theorem C1_counterexample :
    all_tag domNoMatch "div" (some [wSeven]) = Except.ok [] ∧
    ([] : List EltWrapper) ≠ [wSeven] :=
  ⟨rfl, by decide⟩

/-- C1 as amended: for the singular lookups (by_tag, by_name, by_css,
by_xpath, by_id) a zero-match find raises NoSuchElementException, which the
decorator turns into the supplied default, and propagates when no default
was supplied; the plural lookups (all_tag, all_name, all_css, all_xpath)
return the empty list on zero matches, with or without a default — the
default is never consulted there. -/
theorem C1_lookup_default_amended (d : SelDom) (sel : String)
    (w : EltWrapper) (l : List EltWrapper) :
    (d.tagMatches sel = [] →
      by_tag d sel (some w) = Except.ok w ∧
      by_tag d sel none = Except.error PyErr.noSuchElement ∧
      all_tag d sel (some l) = Except.ok [] ∧
      all_tag d sel none = Except.ok []) ∧
    (d.nameMatches sel = [] →
      by_name d sel (some w) = Except.ok w ∧
      by_name d sel none = Except.error PyErr.noSuchElement ∧
      all_name d sel (some l) = Except.ok [] ∧
      all_name d sel none = Except.ok []) ∧
    (d.cssMatches sel = [] →
      by_css d sel (some w) = Except.ok w ∧
      by_css d sel none = Except.error PyErr.noSuchElement ∧
      all_css d sel (some l) = Except.ok [] ∧
      all_css d sel none = Except.ok []) ∧
    (d.xpathMatches sel = [] →
      by_xpath d sel (some w) = Except.ok w ∧
      by_xpath d sel none = Except.error PyErr.noSuchElement ∧
      all_xpath d sel (some l) = Except.ok [] ∧
      all_xpath d sel none = Except.ok []) ∧
    (d.idMatches sel = [] →
      by_id d sel (some w) = Except.ok w ∧
      by_id d sel none = Except.error PyErr.noSuchElement) := by
  refine ⟨?_, ?_, ?_, ?_, ?_⟩ <;> intro h <;>
    simp [by_tag, all_tag, by_name, all_name, by_css, all_css, by_xpath, all_xpath,
      by_id, no_such_element_default, find_element, find_elements, Except.map, h]

/-- C1 witness: the amended behaviour at a page with no matching elements. -/
theorem C1_lookup_default_amended_witness :
    by_tag domNoMatch "div" (some wSeven) = Except.ok wSeven ∧
    by_name domNoMatch "username" none = Except.error PyErr.noSuchElement ∧
    all_css domNoMatch ".alert-error" (some [wSeven]) = Except.ok [] ∧
    by_xpath domNoMatch "//a" (some wSeven) = Except.ok wSeven ∧
    by_id domNoMatch "jform_catid_chzn" none = Except.error PyErr.noSuchElement :=
  ⟨((C1_lookup_default_amended domNoMatch "div" wSeven []).1 rfl).1,
   ((C1_lookup_default_amended domNoMatch "username" wSeven []).2.1 rfl).2.1,
   ((C1_lookup_default_amended domNoMatch ".alert-error" wSeven [wSeven]).2.2.1 rfl).2.2.1,
   ((C1_lookup_default_amended domNoMatch "//a" wSeven []).2.2.2.1 rfl).1,
   ((C1_lookup_default_amended domNoMatch "jform_catid_chzn" wSeven []).2.2.2.2 rfl).2⟩

/-- C5: `add_article` with the error banner present raises TypeError — not
AdminError with the banner text — because `jform_error` is a single wrapped
element (from `by_css`) and `EltWrapper` is not subscriptable; with no
banner it returns the id extracted from the post-submit URL. The post-save
tail evaluated at both page states. -/
theorem C5_banner_typeerror_eval :
    add_article_after_save pageWithBanner =
      Except.error (PyErr.typeError "'EltWrapper' object is not subscriptable") ∧
    add_article_after_save pageSaved = Except.ok "42" :=
  ⟨rfl, rfl⟩

/-- C6 counterexample: on a nonexistent upload path `fill_input_file` does
raise the ValueError, but the browser interaction trace is not empty — the
field was cleared before the filesystem check. -/
theorem C6_counterexample :
    (fill_input_file fsMissing "upload" fileField "missing.png").2 =
      Except.error (PyErr.valueError
        "missing.png does not exists, can't feed it as an upload value") ∧
    (fill_input_file fsMissing "upload" fileField "missing.png").1 ≠ [] :=
  ⟨rfl, by decide⟩

/-- C6 as amended: with a nonexistent path, `fill_input_file` raises the
ValueError before any typing into the field (no send_keys), but after the
one `clear()` interaction, which precedes the filesystem check. -/
theorem C6_clear_precedes_error (fs : FileSystem) (fname : String)
    (field : Elt) (value : String)
    (h : fs.path_exists (fs.abspath value) = false) :
    fill_input_file fs fname field value =
      ([BrowserAct.clear field.eid],
       Except.error (PyErr.valueError
         (value ++ " does not exists, can't feed it as an upload value"))) := by
  simp [fill_input_file, h]

/-- C6 witness: the amended behaviour on a concrete missing path. -/
theorem C6_clear_precedes_error_witness :
    fill_input_file fsMissing "upload" fileField "missing.png" =
      ([BrowserAct.clear 3],
       Except.error (PyErr.valueError
         "missing.png does not exists, can't feed it as an upload value")) :=
  C6_clear_precedes_error fsMissing "upload" fileField "missing.png" rfl

/-- C7: filling a select with a value that is the value attribute of none of
its options fails with the propagated NoSuchElementException, performing no
browser interaction — it never silently completes. -/
theorem C7_select_missing_value (env : PageEnv) (fname : String)
    (field : SelectField) (value : String)
    (h : ∀ o ∈ field.options, get_attribute o "value" ≠ some value) :
    fill_select env fname field value = ([], Except.error PyErr.noSuchElement) := by
  have hf : field.options.filter (fun o => get_attribute o "value" == some value) = [] :=
    filter_false_eq_nil _ field.options
      (fun o ho => beq_eq_false_iff_ne.mpr (h o ho))
  simp [fill_select, select_option_lookup, hf, find_element, no_such_element_default]

/-- C7 witness: a select whose only option has value 1, asked for 9999. -/
theorem C7_select_missing_value_witness :
    fill_select envNoChzn "access" selectAccess "9999" =
      ([], Except.error PyErr.noSuchElement) :=
  C7_select_missing_value envNoChzn "access" selectAccess "9999" (by decide)

/-- C8: on a chosen-rendered (hidden) select, once the widget is opened and
the option text typed, a filtered result count different from one fails with
the AssertionError naming the count, the option text, the field and the
value — no result is clicked; with exactly one result, that result is
clicked and the fill succeeds. -/
theorem C8_chzn_assert_single (env : PageEnv) (fname value : String)
    (field : SelectField) (opt : Elt) (w : ChznWidget)
    (hopt : select_option_lookup field value = Except.ok opt)
    (hvis : field.elt.displayed = false)
    (hch : env.chzn fname = some w) :
    (w.results.length ≠ 1 →
      fill_select env fname field value =
        ([BrowserAct.click w.linkEid,
          BrowserAct.sendKeys w.inputEid (get_attribute opt "text")],
         Except.error (PyErr.assertionError
           ("Found " ++ toString w.results.length ++ " results for " ++
             opt.textProp ++ " for " ++ fname ++ " = " ++ value)))) ∧
    (∀ r, w.results = [r] →
      fill_select env fname field value =
        ([BrowserAct.click w.linkEid,
          BrowserAct.sendKeys w.inputEid (get_attribute opt "text"),
          BrowserAct.click r.eid],
         Except.ok ())) := by
  constructor
  · intro hlen
    match hres : w.results with
    | [] => simp [fill_select, hopt, hvis, hch, hres]
    | [r] => exact absurd (by simp [hres]) hlen
    | a :: b :: rs => simp [fill_select, hopt, hvis, hch, hres]
  · intro r hres
    simp [fill_select, hopt, hvis, hch, hres]

/-- C8 witness: two filtered results trip the assertion with its message;
one filtered result is clicked. -/
theorem C8_chzn_assert_single_witness :
    fill_select envTwoResults "catid" selCatid "9" =
      ([BrowserAct.click 30, BrowserAct.sendKeys 31 (some "Nine")],
       Except.error (PyErr.assertionError "Found 2 results for Nine for catid = 9")) ∧
    fill_select envOneResult "catid" selCatid "9" =
      ([BrowserAct.click 30, BrowserAct.sendKeys 31 (some "Nine"),
        BrowserAct.click 32],
       Except.ok ()) := by
  constructor
  · exact (C8_chzn_assert_single envTwoResults "catid" "9" selCatid optNine
      wTwoResults rfl rfl rfl).1 (by decide)
  · exact (C8_chzn_assert_single envOneResult "catid" "9" selCatid optNine
      wOneResult rfl rfl rfl).2 liNineA rfl

/-- C9: `fill_input_radio` does not compare the radio button's value
attribute. On a radio whose value attribute IS the requested value 1, the
code reads the (absent) attribute named 1, gets None, compares the string
None to 1 and does not click — the claim says this radio must be clicked.
The filler evaluated at the failing input. -/
theorem C9_radio_attr_name_eval :
    get_attribute radioOne "value" = some "1" ∧
    get_attribute radioOne "1" = none ∧
    fill_input_radio "featured" radioOne "1" = [] :=
  ⟨rfl, rfl, rfl⟩

/-- C10: when `fill_field` locates one or more elements for the field name,
every iteration of the loop rebinds the loop variable to the first located
element, so the recorded steps are the first element's tab activation,
tag-name dispatch and fill, repeated once per located element; elements
after the first are never themselves processed. -/
theorem C10_fill_field_first_only (d : SelDom) (name : String) (jform : Bool)
    (f0 : Elt) (rest : List Elt)
    (h : d.nameMatches (if jform then "jform[" ++ name ++ "]" else name) = f0 :: rest) :
    fill_field d name jform =
      List.replicate (rest.length + 1) ⟨f0.eid, f0.tag_name, f0.eid⟩ := by
  simp [fill_field, h, fill_field_steps, list_map_const_replicate,
    List.replicate_succ]

/-- C10 witness: a two-button radio group; both steps target the first
button. -/
theorem C10_fill_field_first_only_witness :
    fill_field domRadioGroup "featured" true =
      List.replicate 2 ⟨50, "input", 50⟩ :=
  C10_fill_field_first_only domRadioGroup "featured" true radioZero [radioOneB] rfl
